import Mathlib

/-!
Verification of the warehouse financial-model engine (`mynewcalcul.py`).

The numeric embedding uses `ℚ` for Python floats: every formula in the
source is a composition of field operations, so its exact rational value
is what the claims about sums, signs and monotonicity are about.
Division sites that can raise `ZeroDivisionError` in Python are embedded
through `checkedDiv` into `Except`, mirroring the `try/except` structure
of `calculate_financials`.
-/

namespace Warehouse

/-- The four storage-share keys of `st.session_state.shares`. -/
inductive Key
  | storage_key
  | loan_key
  | vip_key
  | short_term_key
deriving DecidableEq, Fintype

/-- A share mapping: one rational per storage-share key. -/
abbrev Shares := Key → ℚ

/-- The share dict right after `st.session_state.shares[share_key] =
new_value` (src line 105). -/
def updatedShares (s : Shares) (share_key : Key) (new_value : ℚ) : Shares :=
  Function.update s share_key new_value

/-- `other_keys` (src line 107): the keys other than the changed one whose
current value is positive. -/
def otherKeys (s : Shares) (share_key : Key) (new_value : ℚ) : Finset Key :=
  Finset.univ.filter (fun k => k ≠ share_key ∧ 0 < updatedShares s share_key new_value k)

/-- `current_other_sum` (src line 112). -/
def otherSum (s : Shares) (share_key : Key) (new_value : ℚ) : ℚ :=
  ∑ k ∈ otherKeys s share_key new_value, updatedShares s share_key new_value k

/-- Embeds `normalize_shares` (src lines 97-122).  The changed key is set
first; `other_keys` collects the remaining keys whose current value is
positive; `remaining = 1 - new_value` is split equally when the others sum
to zero and proportionally otherwise. -/
def normalize_shares (s : Shares) (share_key : Key) (new_value : ℚ) : Shares :=
  let s1 : Shares := updatedShares s share_key new_value
  let other_keys : Finset Key := otherKeys s share_key new_value
  if other_keys = ∅ then s1
  else
    let remaining : ℚ := 1 - new_value
    let current_other_sum : ℚ := otherSum s share_key new_value
    if current_other_sum = 0 then
      fun k => if k ∈ other_keys then remaining / other_keys.card else s1 k
    else
      fun k => if k ∈ other_keys then s1 k / current_other_sum * remaining else s1 k

/-- Embeds the `WarehouseParams` dataclass (src lines 33-79), in field
order.  `shelves_per_m2` and `time_horizon` are declared `int` in the
source, the rest `float`. -/
structure WarehouseParams where
  total_area : ℚ
  rental_cost_per_m2 : ℚ
  useful_area_ratio : ℚ
  storage_share : ℚ
  loan_share : ℚ
  vip_share : ℚ
  short_term_share : ℚ
  storage_fee : ℚ
  shelves_per_m2 : ℤ
  short_term_daily_rate : ℚ
  item_evaluation : ℚ
  item_realization_markup : ℚ
  average_item_value : ℚ
  loan_interest_rate : ℚ
  realization_share_storage : ℚ
  realization_share_loan : ℚ
  realization_share_vip : ℚ
  realization_share_short_term : ℚ
  salary_expense : ℚ
  miscellaneous_expenses : ℚ
  depreciation_expense : ℚ
  marketing_expenses : ℚ
  insurance_expenses : ℚ
  taxes : ℚ
  time_horizon : ℤ
  monthly_rent_growth : ℚ
  default_probability : ℚ
  liquidity_factor : ℚ
  safety_factor : ℚ
  storage_items_density : ℚ
  loan_items_density : ℚ
  vip_items_density : ℚ
  short_term_items_density : ℚ
  one_time_setup_cost : ℚ
  one_time_equipment_cost : ℚ
  one_time_other_costs : ℚ
  storage_area : ℚ := 0
  loan_area : ℚ := 0
  vip_area : ℚ := 0
  short_term_area : ℚ := 0
  one_time_expenses : ℚ := 0
  vip_extra_fee : ℚ := 0
deriving DecidableEq

/-- The dictionary returned by `calculate_financials` (src lines 359-380). -/
structure FinResult where
  total_income : ℚ
  total_expenses : ℚ
  profit : ℚ
  realization_income : ℚ
  storage_income : ℚ
  loan_income_after_realization : ℚ
  vip_income : ℚ
  short_term_income : ℚ
  marketing_income : ℚ
  rental_expense : ℚ
  monthly_expenses : ℚ
  one_time_expenses : ℚ
  salary_expense : ℚ
  miscellaneous_expenses : ℚ
  depreciation_expense : ℚ
  marketing_expenses : ℚ
  insurance_expenses : ℚ
  taxes : ℚ
  loan_interest_rate : ℚ
  daily_storage_fee : ℚ
deriving DecidableEq

/-- The dictionary returned by `calculate_areas` (src lines 253-258). -/
structure AreasResult where
  storage_area : ℚ
  loan_area : ℚ
  vip_area : ℚ
  short_term_area : ℚ
deriving DecidableEq

/-- Embeds `calculate_areas` (src lines 229-258). -/
def calculate_areas (total_area useful_area_ratio : ℚ) (shelves_per_m2 : ℤ)
    (storage_share loan_share vip_share short_term_share : ℚ) : AreasResult :=
  let useful_area := total_area * useful_area_ratio
  let double_shelf_area := useful_area * 2 * (shelves_per_m2 : ℚ)
  { storage_area := double_shelf_area * storage_share
    loan_area := double_shelf_area * loan_share
    vip_area := double_shelf_area * vip_share
    short_term_area := double_shelf_area * short_term_share }

/-- Python float division, which raises `ZeroDivisionError` on a zero
divisor; the fault is carried in `Except`. -/
def checkedDiv (a b : ℚ) : Except String ℚ :=
  if b = 0 then Except.error "ZeroDivisionError" else Except.ok (a / b)

/-- The `try`-body of `calculate_financials` (src lines 296-380), one
binding per source line; the three division sites (`loan_interest_rate /
100`, `item_realization_markup / 100`, `storage_fee / 30`) go through
`checkedDiv`. -/
def calculate_financials_try (p : WarehouseParams) : Except String FinResult := do
  let stored_items := p.storage_area * p.storage_items_density
  let total_items_loan := p.loan_area * p.loan_items_density
  let vip_stored_items := p.vip_area * p.vip_items_density
  let short_term_stored_items := p.short_term_area * p.short_term_items_density
  let storage_income := p.storage_area * p.storage_fee
  let loan_interest_rate := max p.loan_interest_rate 0
  let loan_amount := p.loan_area * p.average_item_value * p.item_evaluation
  let loan_income_month := loan_amount * (← checkedDiv loan_interest_rate 100) * 30
  let realization_items_storage := stored_items * p.realization_share_storage
  let realization_items_loan := total_items_loan * p.realization_share_loan
  let realization_items_vip := vip_stored_items * p.realization_share_vip
  let realization_items_short_term := short_term_stored_items * p.realization_share_short_term
  let realization_income_storage :=
    realization_items_storage * p.average_item_value * (← checkedDiv p.item_realization_markup 100)
  let realization_income_loan :=
    realization_items_loan * p.average_item_value * (← checkedDiv p.item_realization_markup 100)
  let realization_income_vip :=
    realization_items_vip * p.average_item_value * (← checkedDiv p.item_realization_markup 100)
  let realization_income_short_term :=
    realization_items_short_term * p.average_item_value * (← checkedDiv p.item_realization_markup 100)
  let realization_income := realization_income_storage + realization_income_loan +
    realization_income_vip + realization_income_short_term
  let loan_income_after_realization :=
    loan_income_month * (1 - p.realization_share_loan) * (1 - p.default_probability)
  let vip_income := p.vip_area * (p.storage_fee + p.vip_extra_fee)
  let short_term_income := p.short_term_area * p.short_term_daily_rate * 30
  let marketing_income := p.marketing_expenses * 1.5
  let total_income := storage_income + loan_income_after_realization +
    realization_income + vip_income + short_term_income + marketing_income
  let rental_expense := p.total_area * p.rental_cost_per_m2
  let monthly_expenses := rental_expense + p.salary_expense + p.miscellaneous_expenses +
    p.depreciation_expense + p.marketing_expenses + p.insurance_expenses + p.taxes
  let total_expenses := monthly_expenses + p.one_time_expenses
  let profit := total_income - total_expenses
  let daily_storage_fee ← checkedDiv p.storage_fee 30
  pure
    { total_income := total_income
      total_expenses := total_expenses
      profit := profit
      realization_income := realization_income
      storage_income := storage_income
      loan_income_after_realization := loan_income_after_realization
      vip_income := vip_income
      short_term_income := short_term_income
      marketing_income := marketing_income
      rental_expense := rental_expense
      monthly_expenses := monthly_expenses
      one_time_expenses := p.one_time_expenses
      salary_expense := p.salary_expense
      miscellaneous_expenses := p.miscellaneous_expenses
      depreciation_expense := p.depreciation_expense
      marketing_expenses := p.marketing_expenses
      insurance_expenses := p.insurance_expenses
      taxes := p.taxes
      loan_interest_rate := loan_interest_rate
      daily_storage_fee := daily_storage_fee }

/-- The all-zero dictionary returned by the `except` branch of
`calculate_financials` (src lines 384-405). -/
def zeroFinancials : FinResult :=
  { total_income := 0, total_expenses := 0, profit := 0, realization_income := 0
    storage_income := 0, loan_income_after_realization := 0, vip_income := 0
    short_term_income := 0, marketing_income := 0, rental_expense := 0
    monthly_expenses := 0, one_time_expenses := 0, salary_expense := 0
    miscellaneous_expenses := 0, depreciation_expense := 0, marketing_expenses := 0
    insurance_expenses := 0, taxes := 0, loan_interest_rate := 0, daily_storage_fee := 0 }

/-- Embeds `calculate_financials` (src lines 289-405): the `try`-body,
with any arithmetic fault masked by the all-zero dictionary. -/
def calculate_financials (p : WarehouseParams) : FinResult :=
  match calculate_financials_try p with
  | Except.ok r => r
  | Except.error _ => zeroFinancials

/-- Line 298: `stored_items = storage_area * storage_items_density`. -/
def stored_items (p : WarehouseParams) : ℚ := p.storage_area * p.storage_items_density

/-- Line 299: `total_items_loan = loan_area * loan_items_density`. -/
def total_items_loan (p : WarehouseParams) : ℚ := p.loan_area * p.loan_items_density

/-- Line 300: `vip_stored_items = vip_area * vip_items_density`. -/
def vip_stored_items (p : WarehouseParams) : ℚ := p.vip_area * p.vip_items_density

/-- Line 301: `short_term_stored_items = short_term_area * short_term_items_density`. -/
def short_term_stored_items (p : WarehouseParams) : ℚ :=
  p.short_term_area * p.short_term_items_density

/-- Line 304: `storage_income = storage_area * storage_fee`. -/
def storage_income (p : WarehouseParams) : ℚ := p.storage_area * p.storage_fee

/-- Line 307: the loan interest rate floored at 0. -/
def loan_interest_rate_eff (p : WarehouseParams) : ℚ := max p.loan_interest_rate 0

/-- Line 308: `loan_amount = loan_area * average_item_value * item_evaluation`. -/
def loan_amount (p : WarehouseParams) : ℚ :=
  p.loan_area * p.average_item_value * p.item_evaluation

/-- Line 309: `loan_income_month = loan_amount * (loan_interest_rate / 100) * 30`. -/
def loan_income_month (p : WarehouseParams) : ℚ :=
  loan_amount p * (loan_interest_rate_eff p / 100) * 30

/-- Lines 312-323: realization income, summed over the four types. -/
def realization_income (p : WarehouseParams) : ℚ :=
  stored_items p * p.realization_share_storage * p.average_item_value *
      (p.item_realization_markup / 100) +
    total_items_loan p * p.realization_share_loan * p.average_item_value *
      (p.item_realization_markup / 100) +
    vip_stored_items p * p.realization_share_vip * p.average_item_value *
      (p.item_realization_markup / 100) +
    short_term_stored_items p * p.realization_share_short_term * p.average_item_value *
      (p.item_realization_markup / 100)

/-- Line 326: loan income after realization and default discounting. -/
def loan_income_after_realization (p : WarehouseParams) : ℚ :=
  loan_income_month p * (1 - p.realization_share_loan) * (1 - p.default_probability)

/-- Line 329: `vip_income = vip_area * (storage_fee + vip_extra_fee)`. -/
def vip_income (p : WarehouseParams) : ℚ :=
  p.vip_area * (p.storage_fee + p.vip_extra_fee)

/-- Line 332: `short_term_income = short_term_area * short_term_daily_rate * 30`. -/
def short_term_income (p : WarehouseParams) : ℚ :=
  p.short_term_area * p.short_term_daily_rate * 30

/-- Line 335: `marketing_income = marketing_expenses * 1.5`. -/
def marketing_income (p : WarehouseParams) : ℚ := p.marketing_expenses * 1.5

/-- Lines 338-339: total income. -/
def total_income (p : WarehouseParams) : ℚ :=
  storage_income p + loan_income_after_realization p + realization_income p +
    vip_income p + short_term_income p + marketing_income p

/-- Line 342: `rental_expense = total_area * rental_cost_per_m2`. -/
def rental_expense (p : WarehouseParams) : ℚ := p.total_area * p.rental_cost_per_m2

/-- Lines 343-351: monthly expenses. -/
def monthly_expenses (p : WarehouseParams) : ℚ :=
  rental_expense p + p.salary_expense + p.miscellaneous_expenses +
    p.depreciation_expense + p.marketing_expenses + p.insurance_expenses + p.taxes

/-- Line 353: `total_expenses = monthly_expenses + one_time_expenses`. -/
def total_expenses (p : WarehouseParams) : ℚ := monthly_expenses p + p.one_time_expenses

/-- Line 356: `profit = total_income - total_expenses`. -/
def profit (p : WarehouseParams) : ℚ := total_income p - total_expenses p

/-- Line 357: `daily_storage_fee = storage_fee / 30`. -/
def daily_storage_fee (p : WarehouseParams) : ℚ := p.storage_fee / 30

/-- The value of the `try`-body on the fault-free path, assembled from
the per-line definitions above. -/
def financialsOk (p : WarehouseParams) : FinResult :=
  { total_income := total_income p
    total_expenses := total_expenses p
    profit := profit p
    realization_income := realization_income p
    storage_income := storage_income p
    loan_income_after_realization := loan_income_after_realization p
    vip_income := vip_income p
    short_term_income := short_term_income p
    marketing_income := marketing_income p
    rental_expense := rental_expense p
    monthly_expenses := monthly_expenses p
    one_time_expenses := p.one_time_expenses
    salary_expense := p.salary_expense
    miscellaneous_expenses := p.miscellaneous_expenses
    depreciation_expense := p.depreciation_expense
    marketing_expenses := p.marketing_expenses
    insurance_expenses := p.insurance_expenses
    taxes := p.taxes
    loan_interest_rate := loan_interest_rate_eff p
    daily_storage_fee := daily_storage_fee p }

/-- Embeds `calculate_additional_metrics` (src lines 182-194): the pair
(profit margin, profitability). -/
def calculate_additional_metrics (total_income total_expenses profit : ℚ) : ℚ × ℚ :=
  let profit_margin := if 0 < total_income then profit / total_income * 100 else 0
  let profitability := if 0 < total_expenses then profit / total_expenses * 100 else 0
  (profit_margin, profitability)

/-- Embeds `calculate_roi` (src lines 407-417). -/
def calculate_roi (total_income total_expenses : ℚ) : ℚ :=
  if total_expenses = 0 then 0
  else (total_income - total_expenses) / total_expenses * 100

/-- Embeds the minimum-loan-amount computation (src lines 1189-1205, a
top-level block over the UI flag `disable_extended`, the parameters and
`base_financials["daily_storage_fee"]`).  The risk-adjusted branch divides
by a product of parameters, so it goes through `checkedDiv`. -/
def min_loan_amount (disable_extended : Bool) (p : WarehouseParams)
    (dailyFee : ℚ) : Except String ℚ :=
  if disable_extended = false ∧ 0 < p.loan_interest_rate then
    let average_growth_factor := 1 + p.monthly_rent_growth * ((p.time_horizon : ℚ) / 2)
    let adjusted_daily_storage_fee := dailyFee * average_growth_factor
    (checkedDiv adjusted_daily_storage_fee
        ((p.loan_interest_rate / 100) * (1 - p.default_probability) *
          p.liquidity_factor)).map
      (fun q => p.safety_factor * q)
  else if 0 < p.loan_interest_rate then
    checkedDiv dailyFee (p.loan_interest_rate / 100)
  else
    Except.ok 0

/-- The four tunable parameter keys the break-even tab passes to
`calculate_bep` (src lines 1469-1487). -/
inductive ParamKey
  | storage_fee
  | loan_interest_rate
  | vip_extra_fee
  | short_term_daily_rate
deriving DecidableEq

/-- `setattr(updated_params, param_key, value)` on a clone of the
parameters (src lines 516-517). -/
def setParam (p : WarehouseParams) (param_key : ParamKey) (value : ℚ) : WarehouseParams :=
  match param_key with
  | ParamKey.storage_fee => { p with storage_fee := value }
  | ParamKey.loan_interest_rate => { p with loan_interest_rate := value }
  | ParamKey.vip_extra_fee => { p with vip_extra_fee := value }
  | ParamKey.short_term_daily_rate => { p with short_term_daily_rate := value }

/-- `profit_at_param` inside `calculate_bep` (src lines 514-521): the
profit of the financials recomputed with one overridden parameter. -/
def profit_at_param (p : WarehouseParams) (param_key : ParamKey) (value : ℚ) : ℚ :=
  (calculate_financials (setParam p param_key value)).profit

/-- Modelled from the spec: the bisection loop of `scipy.optimize.bisect`
(not part of this repository), "a bisection search with absolute
tolerance 0.01 on the parameter value and a maximum of 100 iterations";
fuel exhaustion is the solver's iteration-limit failure, surfaced as
`none`. -/
def bisect_loop (f : ℚ → ℚ) (xtol : ℚ) : ℚ → ℚ → Nat → Option ℚ
  | _, _, 0 => none
  | a, b, n + 1 =>
    if b - a ≤ xtol then some ((a + b) / 2)
    else
      let m := (a + b) / 2
      if f m = 0 then some m
      else if f a * f m < 0 then bisect_loop f xtol a m n
      else bisect_loop f xtol m b n

/-- Modelled from the spec: `scipy.optimize.bisect(f, a, b, xtol, maxiter)`
(not part of this repository).  Its documented contract: reject a bracket
on which `f(a)*f(b) > 0` (a `ValueError`, caught by `calculate_bep` and
turned into `None`), return an endpoint at which `f` is exactly zero, and
otherwise bisect. -/
def bisect (f : ℚ → ℚ) (a b xtol : ℚ) (maxiter : Nat) : Option ℚ :=
  if 0 < f a * f b then none
  else if f a = 0 then some a
  else if f b = 0 then some b
  else bisect_loop f xtol a b maxiter

/-- Embeds `calculate_bep` (src lines 503-540): bracket `[0.5*base,
1.5*base]`, explicit `None` when the endpoint profits have positive
product, then the bisection with `xtol=0.01`, `maxiter=100`; any solver
exception is caught and becomes `None`. -/
def calculate_bep (param_key : ParamKey) (base_value : ℚ) (p : WarehouseParams) :
    Option ℚ :=
  let lower := base_value * 0.5
  let upper := base_value * 1.5
  let profit_low := profit_at_param p param_key lower
  let profit_high := profit_at_param p param_key upper
  if 0 < profit_low * profit_high then none
  else bisect (profit_at_param p param_key) lower upper 0.01 100

/-- All-zero warehouse parameters (every field 0). -/
def pZero : WarehouseParams :=
  { total_area := 0, rental_cost_per_m2 := 0, useful_area_ratio := 0
    storage_share := 0, loan_share := 0, vip_share := 0, short_term_share := 0
    storage_fee := 0, shelves_per_m2 := 0, short_term_daily_rate := 0
    item_evaluation := 0, item_realization_markup := 0, average_item_value := 0
    loan_interest_rate := 0, realization_share_storage := 0
    realization_share_loan := 0, realization_share_vip := 0
    realization_share_short_term := 0, salary_expense := 0
    miscellaneous_expenses := 0, depreciation_expense := 0
    marketing_expenses := 0, insurance_expenses := 0, taxes := 0
    time_horizon := 0, monthly_rent_growth := 0, default_probability := 0
    liquidity_factor := 0, safety_factor := 0, storage_items_density := 0
    loan_items_density := 0, vip_items_density := 0
    short_term_items_density := 0, one_time_setup_cost := 0
    one_time_equipment_cost := 0, one_time_other_costs := 0 }

/-- Parameters whose profit is the linear function `300 * storage_fee -
3001` of the storage fee: 300 m² of storage area, 3001 of salary expense,
everything else 0. -/
def pLinear : WarehouseParams :=
  { pZero with storage_area := 300, salary_expense := 3001 }

/-- Parameters with a zero loan interest rate but nonzero loan area and
risk fields, for exercising the zero-rate branches. -/
def pLoan : WarehouseParams :=
  { pZero with loan_area := 7, average_item_value := 11, item_evaluation := 1,
               safety_factor := 2, liquidity_factor := 1, storage_fee := 60,
               time_horizon := 12, monthly_rent_growth := 1/100 }

/-- The share mapping that puts everything on simple storage. -/
def sAllStorage : Shares := fun k => if k = Key.storage_key then 1 else 0

theorem checkedDiv_100 (a : ℚ) : checkedDiv a 100 = Except.ok (a / 100) := by
  rw [checkedDiv, if_neg (by norm_num : (100 : ℚ) ≠ 0)]

theorem checkedDiv_30 (a : ℚ) : checkedDiv a 30 = Except.ok (a / 30) := by
  rw [checkedDiv, if_neg (by norm_num : (30 : ℚ) ≠ 0)]

theorem except_bind_ok {α β : Type} (a : α) (f : α → Except String β) :
    (Except.ok a : Except String α) >>= f = f a := rfl

/-- The `try`-body never faults: its divisors are the constants 100 and
30, so it always produces the fault-free value. -/
theorem calculate_financials_try_eq (p : WarehouseParams) :
    calculate_financials_try p = Except.ok (financialsOk p) := by
  simp only [calculate_financials_try, checkedDiv_100, checkedDiv_30, except_bind_ok]
  rfl

theorem calculate_financials_eq (p : WarehouseParams) :
    calculate_financials p = financialsOk p := by
  simp [calculate_financials, calculate_financials_try_eq]

theorem financialsOk_storage_income (p : WarehouseParams) :
    (financialsOk p).storage_income = storage_income p := rfl

theorem financialsOk_total_income (p : WarehouseParams) :
    (financialsOk p).total_income = total_income p := rfl

theorem financialsOk_total_expenses (p : WarehouseParams) :
    (financialsOk p).total_expenses = total_expenses p := rfl

theorem financialsOk_profit (p : WarehouseParams) :
    (financialsOk p).profit = profit p := rfl

theorem financialsOk_loan_income_after (p : WarehouseParams) :
    (financialsOk p).loan_income_after_realization = loan_income_after_realization p := rfl

theorem financialsOk_daily_storage_fee (p : WarehouseParams) :
    (financialsOk p).daily_storage_fee = daily_storage_fee p := rfl

/-- C8: the four areas of `calculate_areas` sum to
`total_area * useful_area_ratio * 2 * shelves_per_m2 * (sum of shares)`,
and each individual area is the doubled shelf area times its share. -/
theorem calculate_areas_linear (total_area useful_area_ratio : ℚ) (shelves_per_m2 : ℤ)
    (storage_share loan_share vip_share short_term_share : ℚ) :
    (calculate_areas total_area useful_area_ratio shelves_per_m2
          storage_share loan_share vip_share short_term_share).storage_area +
      (calculate_areas total_area useful_area_ratio shelves_per_m2
          storage_share loan_share vip_share short_term_share).loan_area +
      (calculate_areas total_area useful_area_ratio shelves_per_m2
          storage_share loan_share vip_share short_term_share).vip_area +
      (calculate_areas total_area useful_area_ratio shelves_per_m2
          storage_share loan_share vip_share short_term_share).short_term_area =
      total_area * useful_area_ratio * 2 * (shelves_per_m2 : ℚ) *
        (storage_share + loan_share + vip_share + short_term_share) ∧
    (calculate_areas total_area useful_area_ratio shelves_per_m2
        storage_share loan_share vip_share short_term_share).storage_area =
      total_area * useful_area_ratio * 2 * (shelves_per_m2 : ℚ) * storage_share ∧
    (calculate_areas total_area useful_area_ratio shelves_per_m2
        storage_share loan_share vip_share short_term_share).loan_area =
      total_area * useful_area_ratio * 2 * (shelves_per_m2 : ℚ) * loan_share ∧
    (calculate_areas total_area useful_area_ratio shelves_per_m2
        storage_share loan_share vip_share short_term_share).vip_area =
      total_area * useful_area_ratio * 2 * (shelves_per_m2 : ℚ) * vip_share ∧
    (calculate_areas total_area useful_area_ratio shelves_per_m2
        storage_share loan_share vip_share short_term_share).short_term_area =
      total_area * useful_area_ratio * 2 * (shelves_per_m2 : ℚ) * short_term_share := by
  simp only [calculate_areas]
  exact ⟨by ring_nf, by ring_nf, by ring_nf, by ring_nf, by ring_nf⟩

/-- C10: for positive total expenses, `calculate_roi` agrees with the
profitability component of `calculate_additional_metrics` evaluated at
`profit = total_income - total_expenses`, and both are 0 at zero total
expenses. -/
theorem calculate_roi_eq_profitability (total_income total_expenses : ℚ) :
    (0 < total_expenses →
      calculate_roi total_income total_expenses =
        (calculate_additional_metrics total_income total_expenses
            (total_income - total_expenses)).2) ∧
    (total_expenses = 0 →
      calculate_roi total_income total_expenses = 0 ∧
        (calculate_additional_metrics total_income total_expenses
            (total_income - total_expenses)).2 = 0) := by
  constructor
  · intro h
    rw [calculate_roi, if_neg (ne_of_gt h)]
    simp only [calculate_additional_metrics]
    rw [if_pos h]
  · intro h
    subst h
    refine ⟨?_, ?_⟩
    · rw [calculate_roi, if_pos rfl]
    · simp only [calculate_additional_metrics]
      rw [if_neg (lt_irrefl 0)]

/-- Witness for C10 at `total_income = 5` with expenses `2` and `0`. -/
theorem calculate_roi_eq_profitability_w :
    calculate_roi 5 2 = (calculate_additional_metrics 5 2 (5 - 2)).2 ∧
      calculate_roi 5 0 = 0 ∧ (calculate_additional_metrics 5 0 (5 - 0)).2 = 0 :=
  ⟨(calculate_roi_eq_profitability 5 2).1 (by norm_num),
    (calculate_roi_eq_profitability 5 0).2 rfl⟩

/-- C3: `calculate_financials` is total — the caller always receives a
dictionary, either the all-zero fault dictionary or exactly the value of
the fault-free `try`-body; no exception propagates. -/
theorem calculate_financials_total_fn (p : WarehouseParams) :
    calculate_financials p = zeroFinancials ∨
      calculate_financials_try p = Except.ok (calculate_financials p) := by
  right
  rw [calculate_financials_eq, calculate_financials_try_eq]

/-- C9: the `try`-body of `calculate_financials` divides only by the
constants 100 and 30, so it never faults: the `except` branch is
unreachable and the returned dictionary is always the fault-free value. -/
theorem calculate_financials_no_fault (p : WarehouseParams) :
    calculate_financials_try p = Except.ok (financialsOk p) ∧
      calculate_financials p = financialsOk p :=
  ⟨calculate_financials_try_eq p, calculate_financials_eq p⟩

/-- C5: with a zero loan interest rate the monthly loan interest income
and the loan income after realization are both 0 (whatever the loan
area), and the minimum-loan-amount computation reaches the `rate == 0`
branch and yields 0 without any division fault, for either state of the
extended-risk flag. -/
theorem loan_rate_zero_spec (p : WarehouseParams) (h : p.loan_interest_rate = 0) :
    loan_income_month p = 0 ∧
      (calculate_financials p).loan_income_after_realization = 0 ∧
      ∀ disable_extended : Bool,
        min_loan_amount disable_extended p (calculate_financials p).daily_storage_fee =
          Except.ok 0 := by
  have h1 : loan_income_month p = 0 := by
    simp [loan_income_month, loan_interest_rate_eff, h]
  refine ⟨h1, ?_, ?_⟩
  · rw [calculate_financials_eq, financialsOk_loan_income_after,
      loan_income_after_realization, h1, zero_mul, zero_mul]
  · intro disable_extended
    rw [min_loan_amount]
    rw [if_neg (by simp [h]), if_neg (by simp [h])]

/-- Witness for C5 at `pLoan` (zero rate, nonzero loan area). -/
theorem loan_rate_zero_spec_w :
    loan_income_month pLoan = 0 ∧
      (calculate_financials pLoan).loan_income_after_realization = 0 ∧
      min_loan_amount true pLoan (calculate_financials pLoan).daily_storage_fee =
        Except.ok 0 ∧
      min_loan_amount false pLoan (calculate_financials pLoan).daily_storage_fee =
        Except.ok 0 :=
  ⟨(loan_rate_zero_spec pLoan rfl).1, (loan_rate_zero_spec pLoan rfl).2.1,
    (loan_rate_zero_spec pLoan rfl).2.2 true, (loan_rate_zero_spec pLoan rfl).2.2 false⟩

theorem profit_at_pZero (x : ℚ) : profit_at_param pZero ParamKey.storage_fee x = 0 := by
  rw [profit_at_param]
  simp only [setParam]
  rw [calculate_financials_eq, financialsOk_profit]
  simp [profit, total_income, total_expenses, monthly_expenses, rental_expense,
    storage_income, loan_income_after_realization, loan_income_month, loan_amount,
    loan_interest_rate_eff, realization_income, stored_items, total_items_loan,
    vip_stored_items, short_term_stored_items, vip_income, short_term_income,
    marketing_income, pZero]

/-- C6 (failing input): with `base_value = 0` and all-zero parameters the
profit at the collapsed bracket point is exactly 0, so `calculate_bep`
does not report NOT_FOUND: the degenerate search returns the value `0`
instead of `None` — the explicit zero-base guard the spec demands is
absent. -/
theorem calculate_bep_zero_base_degenerate :
    calculate_bep ParamKey.storage_fee 0 pZero = some 0 ∧
      profit_at_param pZero ParamKey.storage_fee 0 = 0 := by
  refine ⟨?_, profit_at_pZero 0⟩
  rw [calculate_bep]
  simp [bisect, profit_at_pZero]

/-- C7: a key currently pinned at exactly 0 is excluded from
redistribution, so an edit of any other key leaves it at exactly 0. -/
theorem normalize_shares_pinned_zero (s : Shares) (share_key k : Key) (new_value : ℚ)
    (hk : k ≠ share_key) (h0 : s k = 0) :
    normalize_shares s share_key new_value k = 0 := by
  have hs1 : updatedShares s share_key new_value k = 0 := by
    simp [updatedShares, Function.update_apply, hk, h0]
  have hmem : k ∉ otherKeys s share_key new_value := by
    simp [otherKeys, hs1]
  rw [normalize_shares]
  by_cases hemp : otherKeys s share_key new_value = ∅
  · rw [if_pos hemp]
    exact hs1
  · rw [if_neg hemp]
    by_cases hsum : otherSum s share_key new_value = 0
    · rw [if_pos hsum, if_neg hmem]
      exact hs1
    · rw [if_neg hsum, if_neg hmem]
      exact hs1

/-- Witness for C7: the loan share is pinned at 0 and the storage share
is edited; the loan share stays 0. -/
theorem normalize_shares_pinned_zero_w :
    normalize_shares (fun j => if j = Key.loan_key then 0 else 1/3)
      Key.storage_key (1/2) Key.loan_key = 0 :=
  normalize_shares_pinned_zero (fun j => if j = Key.loan_key then 0 else 1/3)
    Key.storage_key Key.loan_key (1/2) (by decide) (by norm_num)

/-- C4 (counterexample): with zero storage area, raising the storage fee
from 0 to 1 leaves `storage_income` at 0, so the increase is not strict. -/
theorem storage_fee_monotone_cex :
    ¬ ((calculate_financials (setParam pZero ParamKey.storage_fee 0)).storage_income <
        (calculate_financials (setParam pZero ParamKey.storage_fee 1)).storage_income) := by
  simp only [setParam]
  rw [calculate_financials_eq, calculate_financials_eq,
    financialsOk_storage_income, financialsOk_storage_income]
  simp [storage_income, pZero]

/-- C4 (amended): with positive storage area and nonnegative VIP area,
increasing the storage fee strictly increases `storage_income` and
`total_income` and does not decrease `profit`. -/
theorem storage_fee_monotone (p : WarehouseParams) (f1 f2 : ℚ)
    (harea : 0 < p.storage_area) (hvip : 0 ≤ p.vip_area) (hf : f1 < f2) :
    (calculate_financials (setParam p ParamKey.storage_fee f1)).storage_income <
      (calculate_financials (setParam p ParamKey.storage_fee f2)).storage_income ∧
    (calculate_financials (setParam p ParamKey.storage_fee f1)).total_income <
      (calculate_financials (setParam p ParamKey.storage_fee f2)).total_income ∧
    (calculate_financials (setParam p ParamKey.storage_fee f1)).profit ≤
      (calculate_financials (setParam p ParamKey.storage_fee f2)).profit := by
  have hstore : p.storage_area * f1 < p.storage_area * f2 :=
    mul_lt_mul_of_pos_left hf harea
  have hvip2 : p.vip_area * f1 ≤ p.vip_area * f2 :=
    mul_le_mul_of_nonneg_left (le_of_lt hf) hvip
  simp only [setParam]
  rw [calculate_financials_eq, calculate_financials_eq]
  simp only [financialsOk_storage_income, financialsOk_total_income, financialsOk_profit,
    profit, total_income, total_expenses, monthly_expenses, rental_expense,
    storage_income, loan_income_after_realization, loan_income_month, loan_amount,
    loan_interest_rate_eff, realization_income, stored_items, total_items_loan,
    vip_stored_items, short_term_stored_items, vip_income, short_term_income,
    marketing_income]
  refine ⟨by nlinarith, by nlinarith, by nlinarith⟩

/-- Witness for C4 at `pLinear` (300 m² of storage area), fees 1 < 2. -/
theorem storage_fee_monotone_w :
    (calculate_financials (setParam pLinear ParamKey.storage_fee 1)).storage_income <
      (calculate_financials (setParam pLinear ParamKey.storage_fee 2)).storage_income ∧
    (calculate_financials (setParam pLinear ParamKey.storage_fee 1)).total_income <
      (calculate_financials (setParam pLinear ParamKey.storage_fee 2)).total_income ∧
    (calculate_financials (setParam pLinear ParamKey.storage_fee 1)).profit ≤
      (calculate_financials (setParam pLinear ParamKey.storage_fee 2)).profit :=
  storage_fee_monotone pLinear 1 2 (by norm_num [pLinear, pZero])
    (by norm_num [pLinear, pZero]) (by norm_num)

theorem sum_keys (f : Key → ℚ) :
    ∑ k, f k =
      f Key.storage_key + f Key.loan_key + f Key.vip_key + f Key.short_term_key := by
  have h : (Finset.univ : Finset Key) =
      {Key.storage_key, Key.loan_key, Key.vip_key, Key.short_term_key} := by decide
  rw [h, Finset.sum_insert (by decide), Finset.sum_insert (by decide),
    Finset.sum_insert (by decide), Finset.sum_singleton]
  ring

theorem mem_otherKeys (s : Shares) (share_key : Key) (new_value : ℚ) (k : Key) :
    k ∈ otherKeys s share_key new_value ↔
      k ≠ share_key ∧ 0 < updatedShares s share_key new_value k := by
  simp [otherKeys]

theorem updatedShares_ne (s : Shares) (share_key : Key) (v : ℚ) (k : Key)
    (hk : k ≠ share_key) : updatedShares s share_key v k = s k := by
  simp [updatedShares, Function.update_apply, hk]

theorem otherKeys_nonempty (s : Shares) (share_key : Key) (v : ℚ)
    (h : ∃ k, k ≠ share_key ∧ 0 < s k) : otherKeys s share_key v ≠ ∅ := by
  obtain ⟨j, hj, hjpos⟩ := h
  intro hemp
  have hjmem : j ∈ otherKeys s share_key v := by
    rw [mem_otherKeys, updatedShares_ne s share_key v j hj]
    exact ⟨hj, hjpos⟩
  rw [hemp] at hjmem
  exact absurd hjmem (Finset.not_mem_empty j)

theorem otherSum_pos (s : Shares) (share_key : Key) (v : ℚ)
    (h : ∃ k, k ≠ share_key ∧ 0 < s k) : 0 < otherSum s share_key v := by
  rw [otherSum]
  apply Finset.sum_pos
  · intro k hk
    exact ((mem_otherKeys s share_key v k).mp hk).2
  · rw [Finset.nonempty_iff_ne_empty]
    exact otherKeys_nonempty s share_key v h

/-- When some other key is positive, the redistribution takes the
proportional branch. -/
theorem normalize_shares_eq (s : Shares) (share_key : Key) (v : ℚ)
    (h : ∃ k, k ≠ share_key ∧ 0 < s k) :
    normalize_shares s share_key v = fun k =>
      if k ∈ otherKeys s share_key v then
        updatedShares s share_key v k / otherSum s share_key v * (1 - v)
      else updatedShares s share_key v k := by
  simp only [normalize_shares]
  rw [if_neg (otherKeys_nonempty s share_key v h),
    if_neg (ne_of_gt (otherSum_pos s share_key v h))]

/-- C1 (amended): whenever some key other than the edited one holds a
positive share, a valid edit produces a mapping that sums to 1 (within
1e-9) with every value in [0,1]. -/
theorem normalize_shares_valid (s : Shares) (share_key : Key) (new_value : ℚ)
    (hv0 : 0 ≤ new_value) (hv1 : new_value ≤ 1)
    (hs : ∀ k, 0 ≤ s k ∧ s k ≤ 1)
    (hother : ∃ k, k ≠ share_key ∧ 0 < s k) :
    |(∑ k, normalize_shares s share_key new_value k) - 1| ≤ 1 / 1000000000 ∧
      ∀ k, 0 ≤ normalize_shares s share_key new_value k ∧
        normalize_shares s share_key new_value k ≤ 1 := by
  have heq := normalize_shares_eq s share_key new_value hother
  have hS := otherSum_pos s share_key new_value hother
  have hSne : otherSum s share_key new_value ≠ 0 := ne_of_gt hS
  have hoff : ∀ k, k ∉ otherKeys s share_key new_value →
      updatedShares s share_key new_value k =
        if k = share_key then new_value else 0 := by
    intro k hk
    by_cases hkk : k = share_key
    · subst hkk
      simp [updatedShares, Function.update_apply]
    · rw [if_neg hkk]
      rw [mem_otherKeys] at hk
      push_neg at hk
      have hle := hk hkk
      rw [updatedShares_ne s share_key new_value k hkk] at hle ⊢
      exact le_antisymm hle (hs k).1
  constructor
  · simp only [heq]
    rw [Finset.sum_ite]
    have h1 : (∑ k ∈ Finset.univ.filter (fun k => k ∈ otherKeys s share_key new_value),
        updatedShares s share_key new_value k / otherSum s share_key new_value *
          (1 - new_value)) = 1 - new_value := by
      rw [Finset.filter_mem_eq_inter, Finset.univ_inter]
      simp only [div_mul_eq_mul_div]
      rw [← Finset.sum_div, ← Finset.sum_mul, ← otherSum, mul_comm, mul_div_assoc,
        div_self hSne, mul_one]
    have h2 : (∑ k ∈ Finset.univ.filter
          (fun k => k ∉ otherKeys s share_key new_value),
        updatedShares s share_key new_value k) = new_value := by
      rw [Finset.sum_congr rfl (fun k hk => hoff k (Finset.mem_filter.mp hk).2)]
      rw [Finset.sum_ite_eq' _ share_key (fun _ => new_value)]
      rw [if_pos]
      rw [Finset.mem_filter]
      refine ⟨Finset.mem_univ share_key, ?_⟩
      rw [mem_otherKeys]
      simp
    rw [h1, h2]
    have h3 : 1 - new_value + new_value - 1 = 0 := by ring
    rw [h3]
    norm_num
  · intro k
    simp only [heq]
    by_cases hk : k ∈ otherKeys s share_key new_value
    · rw [if_pos hk]
      have hkpos : 0 < updatedShares s share_key new_value k :=
        ((mem_otherKeys s share_key new_value k).mp hk).2
      have hkle : updatedShares s share_key new_value k ≤ otherSum s share_key new_value := by
        rw [otherSum]
        exact Finset.single_le_sum
          (fun i hi => le_of_lt ((mem_otherKeys s share_key new_value i).mp hi).2) hk
      have hdiv0 : 0 ≤ updatedShares s share_key new_value k / otherSum s share_key new_value :=
        div_nonneg (le_of_lt hkpos) (le_of_lt hS)
      have hdiv1 : updatedShares s share_key new_value k / otherSum s share_key new_value ≤ 1 :=
        (div_le_one hS).mpr hkle
      constructor
      · exact mul_nonneg hdiv0 (by linarith)
      · nlinarith
    · rw [if_neg hk, hoff k hk]
      by_cases hkk : k = share_key
      · rw [if_pos hkk]
        exact ⟨hv0, hv1⟩
      · rw [if_neg hkk]
        norm_num

/-- Witness for C1 at the uniform mapping (all shares 1/4), editing the
storage share to 1/2. -/
theorem normalize_shares_valid_w :
    |(∑ k, normalize_shares (fun _ => (1 : ℚ)/4) Key.storage_key (1/2) k) - 1| ≤
        1 / 1000000000 ∧
      ∀ k, 0 ≤ normalize_shares (fun _ => (1 : ℚ)/4) Key.storage_key (1/2) k ∧
        normalize_shares (fun _ => (1 : ℚ)/4) Key.storage_key (1/2) k ≤ 1 :=
  normalize_shares_valid (fun _ => (1 : ℚ)/4) Key.storage_key (1/2)
    (by norm_num) (by norm_num) (fun _ => ⟨by norm_num, by norm_num⟩)
    ⟨Key.loan_key, by decide, by norm_num⟩

/-- C1 (counterexample): with all mass on the storage key (a valid
mapping) and a valid edit of that key to 1/2, there is no other positive
key, so the mapping is returned with sum 1/2 — far outside 1e-9 of 1. -/
theorem normalize_shares_valid_cex :
    ¬ (|(∑ k, normalize_shares sAllStorage Key.storage_key (1/2) k) - 1| ≤
          1 / 1000000000 ∧
        ∀ k, 0 ≤ normalize_shares sAllStorage Key.storage_key (1/2) k ∧
          normalize_shares sAllStorage Key.storage_key (1/2) k ≤ 1) := by
  intro hcontra
  have hemp : otherKeys sAllStorage Key.storage_key (1/2) = ∅ := by decide
  have h1 : normalize_shares sAllStorage Key.storage_key (1/2) =
      updatedShares sAllStorage Key.storage_key (1/2) := by
    simp only [normalize_shares]
    rw [if_pos hemp]
  have hsum := hcontra.1
  rw [h1, sum_keys] at hsum
  norm_num [updatedShares, sAllStorage, Function.update_apply, abs_le,
    show Key.loan_key ≠ Key.storage_key from by decide,
    show Key.vip_key ≠ Key.storage_key from by decide,
    show Key.short_term_key ≠ Key.storage_key from by decide] at hsum

theorem sign_flip {x y z : ℚ} (hxz : x * z < 0) (hxy : ¬ x * y < 0) (hy : y ≠ 0) :
    y * z < 0 := by
  push_neg at hxy
  rcases lt_trichotomy x 0 with hx | hx | hx
  · have hz : 0 < z := by
      by_contra hcon
      push_neg at hcon
      nlinarith
    have hy' : y < 0 := by
      rcases lt_trichotomy y 0 with h | h | h
      · exact h
      · exact absurd h hy
      · nlinarith
    exact mul_neg_of_neg_of_pos hy' hz
  · rw [hx, zero_mul] at hxz
    exact absurd hxz (lt_irrefl 0)
  · have hz : z < 0 := by
      by_contra hcon
      push_neg at hcon
      nlinarith
    have hy' : 0 < y := by
      rcases lt_trichotomy y 0 with h | h | h
      · nlinarith
      · exact absurd h hy
      · exact h
    exact mul_neg_of_pos_of_neg hy' hz

/-- Soundness of the bisection loop: on a strict sign-change bracket, a
returned value lies in a sub-bracket of width at most `xtol` on which the
function still changes sign (or touches zero). -/
theorem bisect_loop_sound (f : ℚ → ℚ) (xtol : ℚ) (hxtol : 0 ≤ xtol) :
    ∀ (n : Nat) (a b v : ℚ), a ≤ b → f a * f b < 0 →
      bisect_loop f xtol a b n = some v →
      ∃ a' b', a ≤ a' ∧ a' ≤ v ∧ v ≤ b' ∧ b' ≤ b ∧ b' - a' ≤ xtol ∧
        f a' * f b' ≤ 0 := by
  intro n
  induction n with
  | zero =>
    intro a b v _ _ h
    simp [bisect_loop] at h
  | succ n ih =>
    intro a b v hab hsign h
    simp only [bisect_loop] at h
    by_cases h1 : b - a ≤ xtol
    · rw [if_pos h1] at h
      have hv : (a + b) / 2 = v := Option.some.inj h
      exact ⟨a, b, le_refl a, by linarith, by linarith, le_refl b, h1, le_of_lt hsign⟩
    · rw [if_neg h1] at h
      by_cases h2 : f ((a + b) / 2) = 0
      · rw [if_pos h2] at h
        have hv : (a + b) / 2 = v := Option.some.inj h
        refine ⟨(a + b) / 2, (a + b) / 2, by linarith, by linarith, by linarith,
          by linarith, by linarith, ?_⟩
        rw [h2]
        norm_num
      · rw [if_neg h2] at h
        by_cases h3 : f a * f ((a + b) / 2) < 0
        · rw [if_pos h3] at h
          obtain ⟨a', b', ha1, ha2, ha3, ha4, ha5, ha6⟩ :=
            ih a ((a + b) / 2) v (by linarith) h3 h
          exact ⟨a', b', ha1, ha2, ha3, by linarith, ha5, ha6⟩
        · rw [if_neg h3] at h
          have hmb : f ((a + b) / 2) * f b < 0 := sign_flip hsign h3 h2
          obtain ⟨a', b', ha1, ha2, ha3, ha4, ha5, ha6⟩ :=
            ih ((a + b) / 2) b v (by linarith) hmb h
          exact ⟨a', b', by linarith, ha2, ha3, ha4, ha5, ha6⟩

/-- Completeness of the bisection loop: on a strict sign-change bracket of
width at most `xtol * 2^n`, fuel `n + 1` suffices to return a value. -/
theorem bisect_loop_complete (f : ℚ → ℚ) (xtol : ℚ) :
    ∀ (n : Nat) (a b : ℚ), a ≤ b → f a * f b < 0 → b - a ≤ xtol * 2 ^ n →
      ∃ v, bisect_loop f xtol a b (n + 1) = some v := by
  intro n
  induction n with
  | zero =>
    intro a b hab hsign hw
    rw [pow_zero, mul_one] at hw
    refine ⟨(a + b) / 2, ?_⟩
    simp only [bisect_loop]
    rw [if_pos hw]
  | succ n ih =>
    intro a b hab hsign hw
    have hw2 : xtol * 2 ^ (n + 1) = xtol * 2 ^ n * 2 := by ring
    rw [hw2] at hw
    by_cases h1 : b - a ≤ xtol
    · refine ⟨(a + b) / 2, ?_⟩
      simp only [bisect_loop]
      rw [if_pos h1]
    · by_cases h2 : f ((a + b) / 2) = 0
      · refine ⟨(a + b) / 2, ?_⟩
        simp only [bisect_loop]
        rw [if_neg h1, if_pos h2]
      · by_cases h3 : f a * f ((a + b) / 2) < 0
        · obtain ⟨v, hv⟩ := ih a ((a + b) / 2) (by linarith) h3 (by linarith)
          refine ⟨v, ?_⟩
          simp only [bisect_loop]
          rw [if_neg h1, if_neg h2, if_pos h3]
          exact hv
        · have hmb : f ((a + b) / 2) * f b < 0 := sign_flip hsign h3 h2
          obtain ⟨v, hv⟩ := ih ((a + b) / 2) b (by linarith) hmb (by linarith)
          refine ⟨v, ?_⟩
          simp only [bisect_loop]
          rw [if_neg h1, if_neg h2, if_neg h3]
          exact hv

/-- C2 (amended): for any tunable key and positive base value (small
enough that 100 bisection iterations exhaust the bracket, an astronomical
bound), a positive endpoint-profit product yields NOT_FOUND, and a strict
sign change yields a value `v` inside the bracket lying in a sub-bracket
of width at most the 0.01 parameter tolerance on which the profit changes
sign; the profit at `v` itself need not be small. -/
theorem calculate_bep_spec (param_key : ParamKey) (base_value : ℚ) (p : WarehouseParams)
    (hbase : 0 < base_value) (hbound : base_value ≤ (0.01 : ℚ) * 2 ^ 99) :
    (0 < profit_at_param p param_key (base_value * 0.5) *
        profit_at_param p param_key (base_value * 1.5) →
      calculate_bep param_key base_value p = none) ∧
    (profit_at_param p param_key (base_value * 0.5) *
        profit_at_param p param_key (base_value * 1.5) < 0 →
      ∃ v, calculate_bep param_key base_value p = some v ∧
        base_value * 0.5 ≤ v ∧ v ≤ base_value * 1.5 ∧
        ∃ a b : ℚ, base_value * 0.5 ≤ a ∧ a ≤ v ∧ v ≤ b ∧ b ≤ base_value * 1.5 ∧
          b - a ≤ (0.01 : ℚ) ∧
          profit_at_param p param_key a * profit_at_param p param_key b ≤ 0) := by
  constructor
  · intro hpos
    simp only [calculate_bep]
    rw [if_pos hpos]
  · intro hneg
    have hab : base_value * 0.5 ≤ base_value * 1.5 := by nlinarith
    have hflow : profit_at_param p param_key (base_value * 0.5) ≠ 0 := by
      intro h0
      rw [h0, zero_mul] at hneg
      exact lt_irrefl 0 hneg
    have hfhigh : profit_at_param p param_key (base_value * 1.5) ≠ 0 := by
      intro h0
      rw [h0, mul_zero] at hneg
      exact lt_irrefl 0 hneg
    have hnotpos : ¬ 0 < profit_at_param p param_key (base_value * 0.5) *
        profit_at_param p param_key (base_value * 1.5) := not_lt.mpr (le_of_lt hneg)
    have hwidth : base_value * 1.5 - base_value * 0.5 ≤ (0.01 : ℚ) * 2 ^ 99 := by
      nlinarith
    obtain ⟨v, hv⟩ := bisect_loop_complete (profit_at_param p param_key) 0.01 99
      (base_value * 0.5) (base_value * 1.5) hab hneg hwidth
    have hv100 : bisect_loop (profit_at_param p param_key) 0.01
        (base_value * 0.5) (base_value * 1.5) 100 = some v := hv
    obtain ⟨a', b', h1, h2, h3, h4, h5, h6⟩ :=
      bisect_loop_sound (profit_at_param p param_key) 0.01 (by norm_num) 100
        (base_value * 0.5) (base_value * 1.5) v hab hneg hv100
    refine ⟨v, ?_, by linarith, by linarith, a', b', h1, h2, h3, h4, h5, h6⟩
    simp only [calculate_bep]
    rw [if_neg hnotpos]
    simp only [bisect]
    rw [if_neg hnotpos, if_neg hflow, if_neg hfhigh]
    exact hv100

theorem profit_at_pLinear (x : ℚ) :
    profit_at_param pLinear ParamKey.storage_fee x = 300 * x - 3001 := by
  rw [profit_at_param]
  simp only [setParam]
  rw [calculate_financials_eq, financialsOk_profit]
  norm_num [profit, total_income, total_expenses, monthly_expenses, rental_expense,
    storage_income, loan_income_after_realization, loan_income_month, loan_amount,
    loan_interest_rate_eff, realization_income, stored_items, total_items_loan,
    vip_stored_items, short_term_stored_items, vip_income, short_term_income,
    marketing_income, pLinear, pZero]

/-- Witness for C2 at `pLinear` with key `storage_fee` and base value 10:
the endpoint profits are −1501 and 1499 (strict sign change). -/
theorem calculate_bep_spec_w :
    ((0 : ℚ) < profit_at_param pLinear ParamKey.storage_fee (10 * 0.5) *
        profit_at_param pLinear ParamKey.storage_fee (10 * 1.5) →
      calculate_bep ParamKey.storage_fee 10 pLinear = none) ∧
    (profit_at_param pLinear ParamKey.storage_fee (10 * 0.5) *
        profit_at_param pLinear ParamKey.storage_fee (10 * 1.5) < 0 →
      ∃ v, calculate_bep ParamKey.storage_fee 10 pLinear = some v ∧
        (10 : ℚ) * 0.5 ≤ v ∧ v ≤ 10 * 1.5 ∧
        ∃ a b : ℚ, (10 : ℚ) * 0.5 ≤ a ∧ a ≤ v ∧ v ≤ b ∧ b ≤ 10 * 1.5 ∧
          b - a ≤ (0.01 : ℚ) ∧
          profit_at_param pLinear ParamKey.storage_fee a *
            profit_at_param pLinear ParamKey.storage_fee b ≤ 0) :=
  calculate_bep_spec ParamKey.storage_fee 10 pLinear (by norm_num) (by norm_num)

theorem bl_stop (f : ℚ → ℚ) (xtol a b m : ℚ) (n : Nat) (hm : (a + b) / 2 = m)
    (h1 : b - a ≤ xtol) : bisect_loop f xtol a b (n + 1) = some m := by
  simp only [bisect_loop]
  rw [if_pos h1, hm]

theorem bl_left (f : ℚ → ℚ) (xtol a b m : ℚ) (n : Nat) (hm : (a + b) / 2 = m)
    (h1 : ¬ b - a ≤ xtol) (h2 : f m ≠ 0) (h3 : f a * f m < 0) :
    bisect_loop f xtol a b (n + 1) = bisect_loop f xtol a m n := by
  simp only [bisect_loop]
  rw [hm, if_neg h1, if_neg h2, if_pos h3]

theorem bl_right (f : ℚ → ℚ) (xtol a b m : ℚ) (n : Nat) (hm : (a + b) / 2 = m)
    (h1 : ¬ b - a ≤ xtol) (h2 : f m ≠ 0) (h3 : ¬ f a * f m < 0) :
    bisect_loop f xtol a b (n + 1) = bisect_loop f xtol m b n := by
  simp only [bisect_loop]
  rw [hm, if_neg h1, if_neg h2, if_neg h3]

/-- C2 (counterexample): at `pLinear` with base value 10 the solver
returns `v = 10245/1024 ≈ 10.0049`, where the profit is `119/256 ≈
0.465` — not below the 0.01 tolerance: the 0.01 is a tolerance on the
parameter value, not on the profit. -/
theorem calculate_bep_profit_not_small :
    calculate_bep ParamKey.storage_fee 10 pLinear = some (10245 / 1024) ∧
      ¬ |profit_at_param pLinear ParamKey.storage_fee (10245 / 1024)| < (0.01 : ℚ) := by
  constructor
  · have e1 : profit_at_param pLinear ParamKey.storage_fee (10 * 0.5) = -1501 := by
      rw [profit_at_pLinear]; norm_num
    have e2 : profit_at_param pLinear ParamKey.storage_fee (10 * 1.5) = 1499 := by
      rw [profit_at_pLinear]; norm_num
    have t1 : bisect_loop (profit_at_param pLinear ParamKey.storage_fee) 0.01 (10 * 0.5) (10 * 1.5) 100 =
        bisect_loop (profit_at_param pLinear ParamKey.storage_fee) 0.01 10 (10 * 1.5) 99 :=
      bl_right _ _ _ _ _ 99 (by norm_num) (by norm_num)
        (by rw [profit_at_pLinear]; norm_num)
        (by simp only [profit_at_pLinear]; norm_num)
    have t2 : bisect_loop (profit_at_param pLinear ParamKey.storage_fee) 0.01 10 (10 * 1.5) 99 =
        bisect_loop (profit_at_param pLinear ParamKey.storage_fee) 0.01 10 (25/2) 98 :=
      bl_left _ _ _ _ _ 98 (by norm_num) (by norm_num)
        (by rw [profit_at_pLinear]; norm_num)
        (by simp only [profit_at_pLinear]; norm_num)
    have t3 : bisect_loop (profit_at_param pLinear ParamKey.storage_fee) 0.01 10 (25/2) 98 =
        bisect_loop (profit_at_param pLinear ParamKey.storage_fee) 0.01 10 (45/4) 97 :=
      bl_left _ _ _ _ _ 97 (by norm_num) (by norm_num)
        (by rw [profit_at_pLinear]; norm_num)
        (by simp only [profit_at_pLinear]; norm_num)
    have t4 : bisect_loop (profit_at_param pLinear ParamKey.storage_fee) 0.01 10 (45/4) 97 =
        bisect_loop (profit_at_param pLinear ParamKey.storage_fee) 0.01 10 (85/8) 96 :=
      bl_left _ _ _ _ _ 96 (by norm_num) (by norm_num)
        (by rw [profit_at_pLinear]; norm_num)
        (by simp only [profit_at_pLinear]; norm_num)
    have t5 : bisect_loop (profit_at_param pLinear ParamKey.storage_fee) 0.01 10 (85/8) 96 =
        bisect_loop (profit_at_param pLinear ParamKey.storage_fee) 0.01 10 (165/16) 95 :=
      bl_left _ _ _ _ _ 95 (by norm_num) (by norm_num)
        (by rw [profit_at_pLinear]; norm_num)
        (by simp only [profit_at_pLinear]; norm_num)
    have t6 : bisect_loop (profit_at_param pLinear ParamKey.storage_fee) 0.01 10 (165/16) 95 =
        bisect_loop (profit_at_param pLinear ParamKey.storage_fee) 0.01 10 (325/32) 94 :=
      bl_left _ _ _ _ _ 94 (by norm_num) (by norm_num)
        (by rw [profit_at_pLinear]; norm_num)
        (by simp only [profit_at_pLinear]; norm_num)
    have t7 : bisect_loop (profit_at_param pLinear ParamKey.storage_fee) 0.01 10 (325/32) 94 =
        bisect_loop (profit_at_param pLinear ParamKey.storage_fee) 0.01 10 (645/64) 93 :=
      bl_left _ _ _ _ _ 93 (by norm_num) (by norm_num)
        (by rw [profit_at_pLinear]; norm_num)
        (by simp only [profit_at_pLinear]; norm_num)
    have t8 : bisect_loop (profit_at_param pLinear ParamKey.storage_fee) 0.01 10 (645/64) 93 =
        bisect_loop (profit_at_param pLinear ParamKey.storage_fee) 0.01 10 (1285/128) 92 :=
      bl_left _ _ _ _ _ 92 (by norm_num) (by norm_num)
        (by rw [profit_at_pLinear]; norm_num)
        (by simp only [profit_at_pLinear]; norm_num)
    have t9 : bisect_loop (profit_at_param pLinear ParamKey.storage_fee) 0.01 10 (1285/128) 92 =
        bisect_loop (profit_at_param pLinear ParamKey.storage_fee) 0.01 10 (2565/256) 91 :=
      bl_left _ _ _ _ _ 91 (by norm_num) (by norm_num)
        (by rw [profit_at_pLinear]; norm_num)
        (by simp only [profit_at_pLinear]; norm_num)
    have t10 : bisect_loop (profit_at_param pLinear ParamKey.storage_fee) 0.01 10 (2565/256) 91 =
        bisect_loop (profit_at_param pLinear ParamKey.storage_fee) 0.01 10 (5125/512) 90 :=
      bl_left _ _ _ _ _ 90 (by norm_num) (by norm_num)
        (by rw [profit_at_pLinear]; norm_num)
        (by simp only [profit_at_pLinear]; norm_num)
    have t11 : bisect_loop (profit_at_param pLinear ParamKey.storage_fee) 0.01 10 (5125/512) 90 =
        some (10245 / 1024) :=
      bl_stop _ _ _ _ _ 89 (by norm_num) (by norm_num)
    simp only [calculate_bep]
    rw [if_neg (by rw [e1, e2]; norm_num)]
    simp only [bisect]
    rw [if_neg (by rw [e1, e2]; norm_num), if_neg (by rw [e1]; norm_num),
      if_neg (by rw [e2]; norm_num)]
    rw [t1, t2, t3, t4, t5, t6, t7, t8, t9, t10, t11]
  · rw [profit_at_pLinear]
    norm_num [abs_lt]

end Warehouse
